import Mathlib

/-!
Verification of the scopehal resource layer: `PipelineCacheManager`
(src/scopehal/PipelineCacheManager.cpp) and `VulkanFFTPlan`
(src/scopehal/VulkanFFTPlan.h), embedded shallowly in Lean.

Modelling decisions, each tied to the C++ source:
* `std::map<string, T>` becomes an association list `List (String × T)` with
  `mapFind` (std::map::find) and `mapInsert` (operator[] assignment:
  insert-or-overwrite, keeping at most one entry per key).
* `shared_ptr<vector<uint32_t>>` becomes `Option (List Nat)`: `none` is the
  null pointer, `some ws` a live vector of words.  Object identity of
  `shared_ptr<vk::raii::PipelineCache>` is modelled by a `Nat` id drawn from an
  allocation counter `nextPipelineId` in the cache state; `make_shared` returns
  the counter value and bumps it, so the counter also counts how many pipeline
  cache objects were ever created.
* Every method of `PipelineCacheManager` takes the whole lock
  (`lock_guard<mutex> lock(m_mutex)`) for its whole body, so each method is one
  atomic step; a data race between two calls is therefore one of the two serial
  orders of those steps (see `raceLookup`).
* C++ exceptions become `Except String`; a constructor that can throw returns
  `Except String Obj`, and a throw means no object is produced.
* Undefined behaviour (dereferencing a null `shared_ptr`) becomes an `Option`
  result: `none` means the call does not complete.
* The disk is a map from file name to file bytes; `SaveToDisk` and
  `LoadFromDisk` are translated from their (empty) bodies.
-/

namespace Scopehal

/-- Payload of a `vector<uint32_t>`: a list of 32-bit words.  The cache never
computes on the words, it only stores and returns them, so `Nat` suffices. -/
abbrev Blob := List Nat

/-- A `shared_ptr<vector<uint32_t>>`: `none` is the null pointer. -/
abbrev BlobPtr := Option Blob

/-- Models `std::map::find` on an association list: the value stored under
`k`, or `none` when `k` is absent. -/
def mapFind (k : String) : List (String × α) → Option α
  | [] => none
  | (k2, v) :: t => if k2 = k then some v else mapFind k t

/-- Removes every entry whose key is `k` (helper for insert-or-overwrite). -/
def eraseKey (k : String) : List (String × α) → List (String × α)
  | [] => []
  | (k2, v) :: t => if k2 = k then eraseKey k t else (k2, v) :: eraseKey k t

/-- Models `m[k] = v` on a `std::map`: insert or overwrite, keeping at most one
entry per key. -/
def mapInsert (m : List (String × α)) (k : String) (v : α) : List (String × α) :=
  (k, v) :: eraseKey k m

/-- State of a `PipelineCacheManager`: the two keyed mappings (`m_rawDataCache`
of blob pointers, `m_vkCache` of pipeline-cache object ids) plus the allocation
counter that hands out fresh pipeline object identities. -/
structure CacheState where
  rawDataCache : List (String × BlobPtr)
  vkCache : List (String × Nat)
  nextPipelineId : Nat
deriving Repr, DecidableEq

/-- A freshly constructed cache: both mappings empty, no objects allocated. -/
def initialCacheState : CacheState :=
  { rawDataCache := [], vkCache := [], nextPipelineId := 0 }

/-- `PipelineCacheManager::Clear`: under the mutex, `m_vkCache.clear()` and
`m_rawDataCache.clear()`. -/
def Clear (s : CacheState) : CacheState :=
  { s with vkCache := [], rawDataCache := [] }

/-- `PipelineCacheManager::LookupRaw`: under the mutex, if `find(key)` hits,
return the stored pointer (`m_rawDataCache[key]`, a read since the key is
present); otherwise return `nullptr`.  Returns the pointer and the state after
the call. -/
def LookupRaw (s : CacheState) (key : String) : BlobPtr × CacheState :=
  match mapFind key s.rawDataCache with
  | some v => (v, s)
  | none => (none, s)

/-- `PipelineCacheManager::StoreRaw`: under the mutex, `m_rawDataCache[key] =
value`, then the trace log dereferences `value->size()`.  A null `value` makes
that dereference undefined behaviour, so the call completes (`some` of the new
state) only for a non-null `value`. -/
def StoreRaw (s : CacheState) (key : String) (value : BlobPtr) : Option CacheState :=
  let s1 := { s with rawDataCache := mapInsert s.rawDataCache key value }
  match value with
  | some _ => some s1
  | none => none

/-- `PipelineCacheManager::Lookup` (the pipeline get-or-create): under one
critical section, return the registered object for `key` when present;
otherwise `make_shared` a new empty pipeline cache object, register it under
`key`, and return it.  Returns the object id and the state after the call. -/
def Lookup (s : CacheState) (key : String) : Nat × CacheState :=
  match mapFind key s.vkCache with
  | some p => (p, s)
  | none =>
    let ret := s.nextPipelineId
    (ret, { s with vkCache := mapInsert s.vkCache key ret, nextPipelineId := ret + 1 })

/-- The disk: file name to file content. -/
abbrev Disk := List (String × Blob)

/-- `PipelineCacheManager::SaveToDisk`: the body is only the local declaration
`string rootDir = "";` — it writes nothing, so the disk is unchanged. -/
def SaveToDisk (_s : CacheState) (disk : Disk) : Disk :=
  disk

/-- `PipelineCacheManager::LoadFromDisk`: the body is empty, so the state is
unchanged. -/
def LoadFromDisk (s : CacheState) (_disk : Disk) : CacheState :=
  s

/-- `PipelineCacheManager::~PipelineCacheManager`: `SaveToDisk()` then
`Clear()`.  Returns the final cache state and the final disk. -/
def pipelineCacheManagerDtor (s : CacheState) (disk : Disk) : CacheState × Disk :=
  (Clear s, SaveToDisk s disk)

/-- Outcome of the host platform calls made by `PipelineCacheManager::FindPath`
on the Windows branch: whether `SHGetKnownFolderPath` returns `S_OK`, whether
`PathCombineW` returns non-null, whether `CreateDirectoryW` succeeds, whether
`GetLastError()` is `ERROR_ALREADY_EXISTS` when it fails, and the narrowed
directory path. -/
structure PathEnv where
  shGetKnownFolderPathOk : Bool
  pathCombineOk : Bool
  createDirectoryOk : Bool
  lastErrorAlreadyExists : Bool
  resolvedDir : String
deriving Repr, DecidableEq

/-- `PipelineCacheManager::FindPath` (Windows branch): resolve the roaming
appdata folder, combine with "glscopeclient", create the directory.  Each
failure `throw std::runtime_error(...)`; on success `m_cacheRootDir` is the
narrowed path. -/
def FindPath (env : PathEnv) : Except String String :=
  if !env.shGetKnownFolderPathOk then
    .error "failed to resolve %appdata%"
  else if !env.pathCombineOk then
    .error "failed to build directory path"
  else if !env.createDirectoryOk && !env.lastErrorAlreadyExists then
    .error "failed to create preferences directory"
  else
    .ok env.resolvedDir

/-- A fully constructed `PipelineCacheManager` object: its resolved cache root
directory and its cache state. -/
structure PipelineCacheManagerObj where
  cacheRootDir : String
  state : CacheState
deriving Repr, DecidableEq

/-- `PipelineCacheManager::PipelineCacheManager()`: the constructor body is
only `FindPath()`.  A C++ exception thrown there propagates out of the
constructor, so no object is produced (`Except.error`); otherwise the object
exists with empty mappings. -/
def pipelineCacheManagerCtor (env : PathEnv) : Except String PipelineCacheManagerObj :=
  match FindPath env with
  | .error e => .error e
  | .ok dir => .ok { cacheRootDir := dir, state := initialCacheState }

/-- Whether an `Except` computation produced a value. -/
def exceptOk (e : Except ε α) : Bool :=
  match e with
  | .ok _ => true
  | .error _ => false

/-- The `VKFFT_SUCCESS` status code of the vkFFT plan builder. -/
def VKFFT_SUCCESS : Nat := 0

/-- A constructed `VulkanFFTPlan`: the stored transform size `m_size`.  The
status code returned by `initializeVkFFT` is a local in the constructor that
is logged and discarded — no member records it — so it is not part of the
object. -/
structure VulkanFFTPlan where
  m_size : Nat
deriving Repr, DecidableEq

/-- `VulkanFFTPlan::size()`: a const accessor returning `m_size`. -/
def VulkanFFTPlan.size (p : VulkanFFTPlan) : Nat :=
  p.m_size

/-- `VulkanFFTPlan::VulkanFFTPlan(size)`: sets `m_size = size`, fills the 1D
configuration, then calls `initializeVkFFT` (whose status is the
`_builderStatus` argument).  On a non-success status the code only does
`LogError(...)` with the local `err` and discards it — it does not throw and
stores nothing — so the constructor always completes and returns the same
object whatever the status (`Except.ok`); the exception channel is never
used. -/
def vulkanFFTPlanCtor (size : Nat) (_builderStatus : Nat) : Except String VulkanFFTPlan :=
  let plan : VulkanFFTPlan := { m_size := size }
  .ok plan

/-- Two threads racing `Lookup` on the same key: each call holds `m_mutex` for
its whole body, so the race is one of the two serial orders of the two atomic
calls; `firstIsA` picks which thread's call runs first.  Returns thread A's
result, thread B's result, and the final state. -/
def raceLookup (s : CacheState) (key : String) (firstIsA : Bool) :
    Nat × Nat × CacheState :=
  let r1 := Lookup s key
  let r2 := Lookup r1.2 key
  if firstIsA then (r1.1, r2.1, r2.2) else (r2.1, r1.1, r2.2)

/-- A platform environment in which `SHGetKnownFolderPath` fails to resolve
the roaming appdata folder. -/
def badPathEnv : PathEnv :=
  { shGetKnownFolderPathOk := false, pathCombineOk := true,
    createDirectoryOk := true, lastErrorAlreadyExists := false, resolvedDir := "" }

/-- A cache holding one stored blob entry: key "k1", words [1, 2, 3]. -/
def c6State : CacheState :=
  { rawDataCache := [("k1", some [1, 2, 3])], vkCache := [], nextPipelineId := 0 }

/-! Helper lemmas about the map model. -/

theorem mapFind_insert_self (m : List (String × α)) (k : String) (v : α) :
    mapFind k (mapInsert m k v) = some v := by
  simp [mapInsert, mapFind]

theorem mapFind_eraseKey_ne (m : List (String × α)) (k k2 : String) (h : k2 ≠ k) :
    mapFind k2 (eraseKey k m) = mapFind k2 m := by
  induction m with
  | nil => rfl
  | cons p t ih =>
    obtain ⟨k3, v⟩ := p
    by_cases h3 : k3 = k
    · subst h3
      simp [eraseKey, mapFind, ih, Ne.symm h]
    · simp [eraseKey, mapFind, h3, ih]

theorem mapFind_insert_ne (m : List (String × α)) (k k2 : String) (v : α) (h : k2 ≠ k) :
    mapFind k2 (mapInsert m k v) = mapFind k2 m := by
  simp [mapInsert, mapFind, Ne.symm h, mapFind_eraseKey_ne m k k2 h]

theorem storeRaw_some (s s2 : CacheState) (k : String) (v : Blob)
    (h : StoreRaw s k (some v) = some s2) :
    s2 = { s with rawDataCache := mapInsert s.rawDataCache k (some v) } := by
  simpa [StoreRaw] using h.symm

/-! Claim theorems. -/

/-- C1 counterexample: with transform size 4 and builder status 1 (which is not
`VKFFT_SUCCESS`), construction does not fail — the constructor completes and
produces an object with `size() = 4` — so the claim that a non-success builder
status makes construction fail with `PlanInitError` is false on the code. -/
theorem c1_counterexample :
    (1 : Nat) ≠ VKFFT_SUCCESS ∧ exceptOk (vulkanFFTPlanCtor 4 1) = true ∧
      vulkanFFTPlanCtor 4 1 = .ok { m_size := 4 } :=
  ⟨by decide, rfl, rfl⟩

/-- C1 (amended): if the plan builder reports a non-success status, the
constructor only logs the error and completes anyway: a plan object is still
produced, its `size()` returns the requested size, and no `PlanInitError` is
thrown. -/
theorem c1_ctor_completes_despite_builder_failure (n status : Nat)
    (_h : status ≠ VKFFT_SUCCESS) :
    ∃ p, vulkanFFTPlanCtor n status = .ok p ∧ p.size = n :=
  ⟨{ m_size := n }, rfl, rfl⟩

/-- C1 witness: the amended theorem at size 8 and builder status 1. -/
theorem c1_witness :
    (1 : Nat) ≠ VKFFT_SUCCESS ∧
      ∃ p, vulkanFFTPlanCtor 8 1 = .ok p ∧ p.size = 8 :=
  ⟨by decide, c1_ctor_completes_despite_builder_failure 8 1 (by decide)⟩

/-- C2 counterexample: in an environment where resolving the cache root fails,
`FindPath` throws, the exception propagates out of the constructor, and no
cache object is produced at all — so the claim that the cache object remains
usable in an in-memory-only mode after such a failure is false on the code. -/
theorem c2_counterexample :
    exceptOk (FindPath badPathEnv) = false ∧
      exceptOk (pipelineCacheManagerCtor badPathEnv) = false :=
  ⟨rfl, rfl⟩

/-- C2 (amended): if resolution or creation of the cache root directory fails,
`FindPath` throws a runtime error which propagates out of the constructor, so
construction fails with that error and no cache object exists afterward —
there is no degraded in-memory-only mode. -/
theorem c2_ctor_propagates_findpath_failure (env : PathEnv) (e : String)
    (h : FindPath env = .error e) :
    pipelineCacheManagerCtor env = .error e := by
  simp [pipelineCacheManagerCtor, h]

/-- C2 witness: the amended theorem in the environment where resolving the
roaming appdata folder fails. -/
theorem c2_witness :
    pipelineCacheManagerCtor badPathEnv = .error "failed to resolve %appdata%" :=
  c2_ctor_propagates_findpath_failure badPathEnv _ rfl

/-- C3: `Lookup` returns the registered object when the key is present (and
changes nothing); on a miss it returns a freshly created object, registers it
under the key, and bumps the allocation counter by exactly one; and a second
call with the same key returns the identical object with no further state
change, so at most one pipeline object is ever created per key. -/
theorem c3_lookup_get_or_create (s : CacheState) (k : String) :
    (∀ p, mapFind k s.vkCache = some p → Lookup s k = (p, s)) ∧
    (mapFind k s.vkCache = none →
      (Lookup s k).1 = s.nextPipelineId ∧
      mapFind k (Lookup s k).2.vkCache = some s.nextPipelineId ∧
      (Lookup s k).2.nextPipelineId = s.nextPipelineId + 1) ∧
    (Lookup (Lookup s k).2 k).1 = (Lookup s k).1 ∧
    (Lookup (Lookup s k).2 k).2 = (Lookup s k).2 := by
  rcases hfind : mapFind k s.vkCache with _ | p
  · refine ⟨?_, ?_, ?_, ?_⟩
    · intro p hp
      exact absurd hp (by simp)
    · intro _
      simp [Lookup, hfind, mapFind_insert_self]
    · simp [Lookup, hfind, mapFind_insert_self]
    · simp [Lookup, hfind, mapFind_insert_self]
  · refine ⟨?_, ?_, ?_, ?_⟩
    · intro p2 hp2
      obtain rfl : p = p2 := Option.some.inj hp2
      simp [Lookup, hfind]
    · intro hnone
      exact absurd hnone (by simp)
    · simp [Lookup, hfind]
    · simp [Lookup, hfind]


/-- C3 witness: on the fresh cache, two lookups of "X" return the same object,
namely the first allocated id. -/
theorem c3_witness :
    (Lookup (Lookup initialCacheState "X").2 "X").1 = (Lookup initialCacheState "X").1 ∧
      (Lookup initialCacheState "X").1 = initialCacheState.nextPipelineId := by
  have h := c3_lookup_get_or_create initialCacheState "X"
  exact ⟨h.2.2.1, (h.2.1 rfl).1⟩

/-- C4: after `StoreRaw k v` completes, `LookupRaw k` returns `v`; this keeps
holding across a further store to a different key; a further store to the same
key overwrites it (last writer wins); and `Clear` removes it. -/
theorem c4_store_then_lookup (s s1 : CacheState) (k : String) (v : Blob)
    (h : StoreRaw s k (some v) = some s1) :
    (LookupRaw s1 k).1 = some v ∧
    (∀ k2 w s2, k2 ≠ k → StoreRaw s1 k2 (some w) = some s2 →
      (LookupRaw s2 k).1 = some v) ∧
    (∀ w s3, StoreRaw s1 k (some w) = some s3 → (LookupRaw s3 k).1 = some w) ∧
    (LookupRaw (Clear s1) k).1 = none := by
  have hs1 := storeRaw_some s s1 k v h
  subst hs1
  refine ⟨?_, ?_, ?_, ?_⟩
  · simp [LookupRaw, mapFind_insert_self]
  · intro k2 w s2 hne hst
    have hs2 := storeRaw_some _ s2 k2 w hst
    subst hs2
    simp [LookupRaw, mapFind_insert_ne _ k2 k _ (Ne.symm hne), mapFind_insert_self]
  · intro w s3 hst
    have hs3 := storeRaw_some _ s3 k w hst
    subst hs3
    simp [LookupRaw, mapFind_insert_self]
  · simp [LookupRaw, Clear, mapFind]

/-- C4 witness: storing [1, 2, 3] under "k1" in the fresh cache and looking it
back up returns [1, 2, 3]. -/
theorem c4_witness :
    ∃ s1, StoreRaw initialCacheState "k1" (some [1, 2, 3]) = some s1 ∧
      (LookupRaw s1 "k1").1 = some [1, 2, 3] := by
  refine ⟨_, rfl, ?_⟩
  exact (c4_store_then_lookup initialCacheState _ "k1" [1, 2, 3] rfl).1

/-- C5: each `Lookup` call holds the cache mutex for its whole body, so two
threads racing on the same key execute in one of the two serial orders; in
either order, on a first access both threads observe the identical object and
the allocation counter rises by exactly one — exactly one pipeline object is
created. -/
theorem c5_race_single_creation (s : CacheState) (k : String) (firstIsA : Bool)
    (h : mapFind k s.vkCache = none) :
    (raceLookup s k firstIsA).1 = (raceLookup s k firstIsA).2.1 ∧
    (raceLookup s k firstIsA).2.2.nextPipelineId = s.nextPipelineId + 1 := by
  cases firstIsA <;> simp [raceLookup, Lookup, h, mapFind_insert_self]

/-- C5 witness: the race theorem on the fresh cache, key "X", one order. -/
theorem c5_witness :
    (raceLookup initialCacheState "X" true).1 =
      (raceLookup initialCacheState "X" true).2.1 ∧
    (raceLookup initialCacheState "X" true).2.2.nextPipelineId =
      initialCacheState.nextPipelineId + 1 :=
  c5_race_single_creation initialCacheState "X" true rfl

/-- C6 (code bug): `SaveToDisk` and `LoadFromDisk` have empty bodies, so with
a cache holding the stored entry ("k1", [1, 2, 3]) and an empty disk, the
destructor (SaveToDisk then Clear) leaves the disk empty and `LoadFromDisk`
rehydrates nothing — contradicting the methods' own doc comments and the
claim's persistence contract. -/
theorem c6_persistence_unimplemented :
    SaveToDisk c6State [] = [] ∧
    pipelineCacheManagerDtor c6State [] = (Clear c6State, []) ∧
    LoadFromDisk initialCacheState [("hashfile", [1, 2, 3])] = initialCacheState ∧
    c6State.rawDataCache ≠ [] :=
  ⟨rfl, rfl, rfl, by decide⟩

/-- C7: after `Clear` both mappings are empty; a subsequent `LookupRaw` on any
key is a fresh miss (returns null, state untouched), and a subsequent `Lookup`
on any key creates and registers a new object, exactly as on a fresh miss. -/
theorem c7_clear_fresh_miss (s : CacheState) (k : String) :
    (Clear s).rawDataCache = [] ∧ (Clear s).vkCache = [] ∧
    (LookupRaw (Clear s) k).1 = none ∧ (LookupRaw (Clear s) k).2 = Clear s ∧
    (Lookup (Clear s) k).1 = (Clear s).nextPipelineId ∧
    mapFind k (Lookup (Clear s) k).2.vkCache = some (Clear s).nextPipelineId ∧
    (Lookup (Clear s) k).2.nextPipelineId = (Clear s).nextPipelineId + 1 := by
  simp [Clear, LookupRaw, Lookup, mapFind, mapFind_insert_self]

/-- C8: `LookupRaw` on a key absent from the blob mapping returns null (not
found) and leaves the whole cache state — both mappings — unchanged. -/
theorem c8_lookup_raw_miss (s : CacheState) (k : String)
    (h : mapFind k s.rawDataCache = none) :
    LookupRaw s k = (none, s) := by
  simp [LookupRaw, h]

/-- C8 witness: looking up "k2" in the fresh cache misses and changes
nothing. -/
theorem c8_witness : LookupRaw initialCacheState "k2" = (none, initialCacheState) :=
  c8_lookup_raw_miss initialCacheState "k2" rfl

/-- C9: for every n > 0, successful construction (builder returns
`VKFFT_SUCCESS`) produces a plan whose `size()` accessor — a const function of
the object alone, which cannot change the plan's state — returns n. -/
theorem c9_plan_size (n : Nat) (_h : 0 < n) :
    ∃ p, vulkanFFTPlanCtor n VKFFT_SUCCESS = .ok p ∧ p.size = n :=
  ⟨{ m_size := n }, rfl, rfl⟩

/-- C9 witness: the spec's scenario, `ComputePlan(1024).size() = 1024`. -/
theorem c9_witness :
    0 < 1024 ∧ ∃ p, vulkanFFTPlanCtor 1024 VKFFT_SUCCESS = .ok p ∧ p.size = 1024 :=
  ⟨by decide, c9_plan_size 1024 (by decide)⟩

/-- C10: for every key and every non-null value, `StoreRaw` completes without
error and registers the value (the logging dereference is safe), while a null
value makes the call's dereference undefined behaviour — it never completes —
so non-null is a genuine precondition. -/
theorem c10_store_requires_nonnull (s : CacheState) (k : String) (v : Blob) :
    (∃ s1, StoreRaw s k (some v) = some s1 ∧ mapFind k s1.rawDataCache = some (some v)) ∧
    StoreRaw s k none = none :=
  ⟨⟨_, rfl, mapFind_insert_self _ _ _⟩, rfl⟩

end Scopehal
